import Mathlib

/-!
Verification of the wallet-authentication core of `web3_auth`
(`src/App.tsx`): the connection state machine (`connect`, `disconnect`,
`signMessage`, the `accountsChanged` handler) and the SIWE message builder
(`generateSiweMessage`).

The React component state `WalletState` and the `provider` handle are
modelled as explicit records; the asynchronous provider interactions are
modelled by passing the outcome the external wallet produced (success data
or the thrown failure) as an explicit argument to each operation.
-/

namespace Web3Auth

/-- The `WalletState` record of `App.tsx` (`address`, `chainId`,
`isConnected`, `isLoading`, `error`); `null` becomes `none`. -/
structure WalletState where
  address : Option String
  chainId : Option Int
  isConnected : Bool
  isLoading : Bool
  error : Option String
deriving Repr, DecidableEq

/-- The initial `useState` value of `WalletState` in `WalletProvider`. -/
def initialWalletState : WalletState :=
  { address := none, chainId := none, isConnected := false,
    isLoading := false, error := none }

/-- The full mutable state of `WalletProvider`: the `WalletState` plus the
`provider` handle (`useState<ethers.BrowserProvider | null>`); the handle is
abstracted to an identity tag, `none` meaning `null`. -/
structure FullState where
  st : WalletState
  provider : Option Nat
deriving Repr, DecidableEq

/-- The initial state of `WalletProvider`: initial wallet state, no
provider handle. -/
def initialFullState : FullState :=
  { st := initialWalletState, provider := none }

/-- The `walletType` argument of `connect`. -/
inductive WalletType
  | metamask
  | walletconnect
deriving Repr, DecidableEq

/-- Outcome of the awaited provider interaction inside `connect`'s `try`
block (`connectMetaMask` / `connectWalletConnect`): either the
`{ address: accounts[0], chainId: Number(network.chainId) }` result together
with the freshly constructed `BrowserProvider` handle (per EIP-1193 a
successful `eth_requestAccounts` surfaces at least one account, so
`accounts[0]` is a string), or a thrown failure carrying an optional
`err.message` (`none` models an absent/undefined message). -/
inductive ConnectOutcome
  | success (address : String) (chainId : Int) (handle : Nat)
  | failure (message : Option String)
deriving Repr, DecidableEq

/-- JavaScript `m || fallback` on an optional string: an absent message or
the empty string (both falsy) select the fallback. -/
def jsOrElse (m : Option String) (fallback : String) : String :=
  match m with
  | none => fallback
  | some s => if s = "" then fallback else s

/-- The `connect` function of `App.tsx` lines 101–124.  It first sets
`isLoading: true, error: null`; on success it replaces the state with the
connected state and stores the new provider handle; on a thrown failure it
keeps the previous fields (`...prev`), sets `isLoading: false` and
`error: err.message || "Failed to connect wallet"`, and leaves the provider
handle untouched (the throw happens before `setProvider`). -/
def connect (s : FullState) (_wt : WalletType) (outcome : ConnectOutcome) :
    FullState :=
  let interim : WalletState := { s.st with isLoading := true, error := none }
  match outcome with
  | .success a c h =>
      { st := { address := some a, chainId := some c, isConnected := true,
                isLoading := false, error := none },
        provider := some h }
  | .failure msg =>
      let failed : WalletState :=
        { interim with
          isLoading := false,
          error := some (jsOrElse msg "Failed to connect wallet") }
      { st := failed, provider := s.provider }

/-- Outcome of the awaited signer interaction inside `signMessage`'s `try`
block: either the signature string returned by `signer.signMessage`, or a
thrown failure whose `err.code` is `some n` when the code is the number `n`
and `none` when it is absent or not a number (`err.code === 4001` is a
strict comparison against the number 4001). -/
inductive SignOutcome
  | success (signature : String)
  | failure (code : Option Int)
deriving Repr, DecidableEq

/-- JavaScript falsiness of the nullable string `state.address`: `!x` is
true for `null`/`undefined` and for the empty string. -/
def jsFalsyString : Option String → Bool
  | none => true
  | some s => s = ""

/-- JavaScript falsiness of the nullable number `state.chainId`: `!x` is
true for `null`/`undefined` and for 0. -/
def jsFalsyNumber : Option Int → Bool
  | none => true
  | some n => n = 0

/-- The `signMessage` function of `App.tsx` lines 127–157, returning the
`Promise<string | null>` result together with the final state.  The guard
`!provider || !state.address || !state.chainId` fails fast with
`error: "Wallet not connected"` and no loading phase — `provider` is an
object or `null` (falsy only when `null`), while the empty-string address
and the zero chain id are also falsy; otherwise it sets
`isLoading: true, error: null`, then on success clears `isLoading` and
returns the signature, and on a thrown failure classifies the error by
`err.code === 4001`. -/
def signMessage (s : FullState) (outcome : SignOutcome) :
    Option String × FullState :=
  if s.provider.isNone || jsFalsyString s.st.address || jsFalsyNumber s.st.chainId then
    (none, { s with st := { s.st with error := some "Wallet not connected" } })
  else
    let interim : WalletState := { s.st with isLoading := true, error := none }
    match outcome with
    | .success sig => (some sig, { s with st := { interim with isLoading := false } })
    | .failure code =>
        let errorMsg :=
          if code = some 4001 then "Signature rejected by user"
          else "Failed to sign message"
        let failed : WalletState :=
          { interim with isLoading := false, error := some errorMsg }
        (none, { s with st := failed })

/-- The `disconnect` function of `App.tsx` lines 160–169: `setProvider(null)`
and reset of every `WalletState` field to its initial value. -/
def disconnect (_s : FullState) : FullState :=
  { st := { address := none, chainId := none, isConnected := false,
            isLoading := false, error := none },
    provider := none }

/-- The `accountsChanged` handler of `App.tsx` lines 174–180: an empty
account list triggers `disconnect()`, otherwise `address` is set to
`accounts[0]` in place. -/
def onAccountsChanged (accounts : List String) (s : FullState) : FullState :=
  match accounts with
  | [] => disconnect s
  | a :: _ => { s with st := { s.st with address := some a } }

/-- One externally triggered operation on the wallet state machine. -/
inductive Event
  | connectEv (wt : WalletType) (outcome : ConnectOutcome)
  | signEv (outcome : SignOutcome)
  | disconnectEv
  | accountsChangedEv (accounts : List String)
deriving Repr, DecidableEq

/-- The state transition performed by one event. -/
def step (s : FullState) (e : Event) : FullState :=
  match e with
  | .connectEv wt o => connect s wt o
  | .signEv o => (signMessage s o).2
  | .disconnectEv => disconnect s
  | .accountsChangedEv accounts => onAccountsChanged accounts s

/-- The state reached from the initial `WalletProvider` state after a
sequence of events. -/
def run (evs : List Event) : FullState :=
  evs.foldl step initialFullState

/-- The spec invariant: `isConnected` implies `address != null` and
`chainId != null`. -/
def walletInvariant (w : WalletState) : Bool :=
  !w.isConnected || (w.address.isSome && w.chainId.isSome)

/-- The constant `statement` of `generateSiweMessage`. -/
def siweStatement : String := "Sign in to verify your wallet ownership"

/-- The `generateSiweMessage` function of `App.tsx` lines 38–55.  The
ambient values read at call time — `window.location.host` (`domain`),
`window.location.origin` (`origin`), the generated `nonce` and the
`issuedAt` timestamp — are passed as arguments; the template literal is the
concatenation below. -/
def generateSiweMessage (domain origin nonce issuedAt : String)
    (address : String) (chainId : Int) : String :=
  domain ++ " wants you to sign in with your Ethereum account:\n" ++
  address ++ "\n\n" ++
  siweStatement ++ "\n\n" ++
  "URI: " ++ origin ++ "\n" ++
  "Version: 1\n" ++
  "Chain ID: " ++ toString chainId ++ "\n" ++
  "Nonce: " ++ nonce ++ "\n" ++
  "Issued At: " ++ issuedAt

/-- The lines of the SIWE template literal, in order. -/
def siweLines (domain origin nonce issuedAt : String)
    (address : String) (chainId : Int) : List String :=
  [domain ++ " wants you to sign in with your Ethereum account:",
   address,
   "",
   siweStatement,
   "",
   "URI: " ++ origin,
   "Version: 1",
   "Chain ID: " ++ toString chainId,
   "Nonce: " ++ nonce,
   "Issued At: " ++ issuedAt]

/-- JavaScript `String.prototype.substring(start, end)`: both indices are
clamped to `[0, length]` and swapped if out of order; the characters of the
half-open index range are returned.  (Indices are already non-negative at
the one call site, so `Nat` arguments suffice.) -/
def jsSubstring (s : String) (start finish : Nat) : String :=
  let a := min start s.length
  let b := min finish s.length
  String.mk ((s.data.drop (min a b)).take (max a b - min a b))

/-- The nonce computation of `App.tsx` line 42,
`Math.random().toString(36).substring(2, 15)`, as a function of the base-36
string representation that `Number.prototype.toString(36)` produced for the
random number (`"0"` for zero, `"0."` followed by base-36 digits for a
fractional value). -/
def nonceFromRandomRepr (repr : String) : String :=
  jsSubstring repr 2 15

/-- A sample connected state used to instantiate theorems with
preconditions. -/
def sampleConnected : FullState :=
  { st := { address := some "0xabc", chainId := some 1, isConnected := true,
            isLoading := false, error := none },
    provider := some 7 }

/-- Helper: every single `step` preserves the wallet invariant. -/
theorem walletInvariant_step (s : FullState) (e : Event)
    (h : walletInvariant s.st = true) : walletInvariant (step s e).st = true := by
  cases e with
  | connectEv wt o =>
      cases o with
      | success a c hdl => simp [step, connect, walletInvariant]
      | failure msg => simpa [step, connect, walletInvariant] using h
  | signEv o =>
      cases hg : s.provider.isNone || jsFalsyString s.st.address ||
          jsFalsyNumber s.st.chainId <;>
        cases o <;> simpa [step, signMessage, hg, walletInvariant] using h
  | disconnectEv => simp [step, disconnect, walletInvariant]
  | accountsChangedEv accounts =>
      cases accounts with
      | nil => simp [step, onAccountsChanged, disconnect, walletInvariant]
      | cons a rest =>
          simp [step, onAccountsChanged, walletInvariant] at h ⊢
          cases hC : s.st.isConnected with
          | false => simp
          | true => simp [hC] at h; simp [h.2]

/-- C1: every state reachable from the initial `WalletProvider` state by any
sequence of operations (connect with either wallet type, signMessage,
disconnect, accountsChanged) satisfies the invariant that `isConnected`
implies both `address` and `chainId` are non-null; in particular every state
produced by a successful connect satisfies it. -/
theorem reachable_connected_implies_address_chainId (evs : List Event)
    (s : FullState) (wt : WalletType) (a : String) (c : Int) (hdl : Nat) :
    walletInvariant (run evs).st = true ∧
    (connect s wt (ConnectOutcome.success a c hdl)).st.isConnected = true ∧
    walletInvariant (connect s wt (ConnectOutcome.success a c hdl)).st = true := by
  refine ⟨?_, rfl, by simp [connect, walletInvariant]⟩
  have key : ∀ (l : List Event) (t : FullState), walletInvariant t.st = true →
      walletInvariant (l.foldl step t).st = true := by
    intro l
    induction l with
    | nil => intro t ht; exact ht
    | cons e es ih =>
        intro t ht
        exact ih (step t e) (walletInvariant_step t e ht)
  exact key evs initialFullState rfl

/-- C2: whenever the provider handle is absent, `signMessage` returns null,
sets `error` to exactly "Wallet not connected", and leaves `isLoading`
unchanged (it is never set to true during the call). -/
theorem signMessage_no_provider (s : FullState) (o : SignOutcome)
    (h : s.provider = none) :
    (signMessage s o).1 = none ∧
    (signMessage s o).2.st.error = some "Wallet not connected" ∧
    (signMessage s o).2.st.isLoading = s.st.isLoading := by
  simp [signMessage, h]

/-- Witness for C2 at the initial state with a success outcome. -/
theorem signMessage_no_provider_witness :
    (signMessage initialFullState (SignOutcome.success "sig")).1 = none ∧
    (signMessage initialFullState (SignOutcome.success "sig")).2.st.error =
      some "Wallet not connected" ∧
    (signMessage initialFullState (SignOutcome.success "sig")).2.st.isLoading =
      initialFullState.st.isLoading :=
  signMessage_no_provider initialFullState (SignOutcome.success "sig") rfl

/-- C3 counterexample: a failing connect from a connected prior state does
NOT produce a disconnected-equivalent state — the previous `address`,
`chainId` and `isConnected` survive (`setState` spreads `...prev`). -/
theorem connect_failure_not_disconnected_counterexample :
    (connect sampleConnected WalletType.metamask (ConnectOutcome.failure none)).st.address =
      some "0xabc" ∧
    (connect sampleConnected WalletType.metamask (ConnectOutcome.failure none)).st.address ≠
      none ∧
    (connect sampleConnected WalletType.metamask (ConnectOutcome.failure none)).st.isConnected =
      true := by
  refine ⟨rfl, ?_, rfl⟩
  simp [connect, sampleConnected]

/-- C3 amended: on any thrown failure, `connect` sets `isLoading` to false
and `error` to the failure's message (or "Failed to connect wallet" when the
message is absent or empty), while `address`, `chainId`, `isConnected` and
the provider handle all retain their prior values; consequently from a
disconnected-equivalent prior state the result is disconnected-equivalent. -/
theorem connect_failure_sets_error_and_frames_rest (s : FullState)
    (wt : WalletType) (msg : Option String) :
    (connect s wt (ConnectOutcome.failure msg)).st.isLoading = false ∧
    (connect s wt (ConnectOutcome.failure msg)).st.error =
      some (jsOrElse msg "Failed to connect wallet") ∧
    (connect s wt (ConnectOutcome.failure msg)).st.address = s.st.address ∧
    (connect s wt (ConnectOutcome.failure msg)).st.chainId = s.st.chainId ∧
    (connect s wt (ConnectOutcome.failure msg)).st.isConnected = s.st.isConnected ∧
    (connect s wt (ConnectOutcome.failure msg)).provider = s.provider :=
  ⟨rfl, rfl, rfl, rfl, rfl, rfl⟩

/-- C4: `disconnect` always yields exactly the initial state (all fields
null/false and the provider handle released), and is idempotent. -/
theorem disconnect_resets_and_idempotent (s : FullState) :
    disconnect s = initialFullState ∧
    (disconnect s).provider = none ∧
    disconnect (disconnect s) = disconnect s :=
  ⟨rfl, rfl, rfl⟩

/-- C5: in a connected state (live provider handle and truthy — non-empty,
non-zero — address and chain id, so the fail-fast guard does not fire), a
failing signing call makes `signMessage` return null with
`isLoading = false`, and the error is "Signature rejected by user" exactly
when the failure's code is 4001, and "Failed to sign message" otherwise. -/
theorem signMessage_failure_classifies_error (s : FullState) (p : Nat)
    (a : String) (c : Int) (code : Option Int)
    (hp : s.provider = some p) (ha : s.st.address = some a) (hane : a ≠ "")
    (hc : s.st.chainId = some c) (hcne : c ≠ 0) :
    (signMessage s (SignOutcome.failure code)).1 = none ∧
    (signMessage s (SignOutcome.failure code)).2.st.isLoading = false ∧
    ((signMessage s (SignOutcome.failure code)).2.st.error =
        some "Signature rejected by user" ↔ code = some 4001) ∧
    (code ≠ some 4001 →
      (signMessage s (SignOutcome.failure code)).2.st.error =
        some "Failed to sign message") := by
  by_cases h4 : code = some 4001 <;>
    simp [signMessage, jsFalsyString, jsFalsyNumber, hp, ha, hane, hc, hcne, h4]

/-- Witness for C5 at a concrete connected state with rejection code 4001. -/
theorem signMessage_failure_classifies_error_witness :
    (signMessage sampleConnected (SignOutcome.failure (some 4001))).1 = none ∧
    (signMessage sampleConnected (SignOutcome.failure (some 4001))).2.st.isLoading = false ∧
    ((signMessage sampleConnected (SignOutcome.failure (some 4001))).2.st.error =
        some "Signature rejected by user" ↔ (some 4001 : Option Int) = some 4001) ∧
    ((some 4001 : Option Int) ≠ some 4001 →
      (signMessage sampleConnected (SignOutcome.failure (some 4001))).2.st.error =
        some "Failed to sign message") :=
  signMessage_failure_classifies_error sampleConnected 7 "0xabc" 1 (some 4001)
    rfl rfl (by decide) rfl (by decide)

/-- C8: the `accountsChanged` handler on an empty account list performs
exactly the `disconnect` transition — the two are equal as functions on the
full state, for every state (in particular every connected one). -/
theorem accountsChanged_empty_eq_disconnect (s : FullState) :
    onAccountsChanged [] s = disconnect s :=
  rfl

/-- C9: the `accountsChanged` handler on a non-empty account list sets
`address` to the first reported account and leaves `chainId` and
`isConnected` (and the rest of the state) unchanged. -/
theorem accountsChanged_nonempty_updates_address_only (s : FullState)
    (a : String) (rest : List String) :
    (onAccountsChanged (a :: rest) s).st.address = some a ∧
    (onAccountsChanged (a :: rest) s).st.chainId = s.st.chainId ∧
    (onAccountsChanged (a :: rest) s).st.isConnected = s.st.isConnected ∧
    (onAccountsChanged (a :: rest) s).st.isLoading = s.st.isLoading ∧
    (onAccountsChanged (a :: rest) s).st.error = s.st.error ∧
    (onAccountsChanged (a :: rest) s).provider = s.provider :=
  ⟨rfl, rfl, rfl, rfl, rfl, rfl⟩

/-- C10: in a connected state (live provider handle and truthy — non-empty,
non-zero — address and chain id, so the fail-fast guard does not fire), a
successful signing call returns exactly the provider's signature and leaves
`address`, `chainId`, `isConnected` and the provider handle unchanged, with
`error = none` and `isLoading = false` in the final state. -/
theorem signMessage_success_returns_signature_frames_state (s : FullState)
    (p : Nat) (a : String) (c : Int) (sig : String)
    (hp : s.provider = some p) (ha : s.st.address = some a) (hane : a ≠ "")
    (hc : s.st.chainId = some c) (hcne : c ≠ 0) :
    (signMessage s (SignOutcome.success sig)).1 = some sig ∧
    (signMessage s (SignOutcome.success sig)).2.st.address = s.st.address ∧
    (signMessage s (SignOutcome.success sig)).2.st.chainId = s.st.chainId ∧
    (signMessage s (SignOutcome.success sig)).2.st.isConnected = s.st.isConnected ∧
    (signMessage s (SignOutcome.success sig)).2.st.error = none ∧
    (signMessage s (SignOutcome.success sig)).2.st.isLoading = false ∧
    (signMessage s (SignOutcome.success sig)).2.provider = s.provider := by
  simp [signMessage, jsFalsyString, jsFalsyNumber, hp, ha, hane, hc, hcne]

/-- Witness for C10 at a concrete connected state. -/
theorem signMessage_success_returns_signature_frames_state_witness :
    (signMessage sampleConnected (SignOutcome.success "0xsig")).1 = some "0xsig" ∧
    (signMessage sampleConnected (SignOutcome.success "0xsig")).2.st.address =
      sampleConnected.st.address ∧
    (signMessage sampleConnected (SignOutcome.success "0xsig")).2.st.chainId =
      sampleConnected.st.chainId ∧
    (signMessage sampleConnected (SignOutcome.success "0xsig")).2.st.isConnected =
      sampleConnected.st.isConnected ∧
    (signMessage sampleConnected (SignOutcome.success "0xsig")).2.st.error = none ∧
    (signMessage sampleConnected (SignOutcome.success "0xsig")).2.st.isLoading = false ∧
    (signMessage sampleConnected (SignOutcome.success "0xsig")).2.provider =
      sampleConnected.provider :=
  signMessage_success_returns_signature_frames_state sampleConnected 7 "0xabc" 1
    "0xsig" rfl rfl (by decide) rfl (by decide)

/-- C6: the generated challenge decomposes into exactly the SIWE line list
joined by newlines; in that line structure the address is verbatim the
second line (index 1), the literal line "Version: 1" occurs, and a
"Chain ID:" line carrying exactly the chain id passed in occurs. -/
theorem generateSiweMessage_line_structure (d o n t a : String) (c : Int) :
    generateSiweMessage d o n t a c =
      String.intercalate "\n" (siweLines d o n t a c) ∧
    (siweLines d o n t a c)[1]? = some a ∧
    "Version: 1" ∈ siweLines d o n t a c ∧
    ("Chain ID: " ++ toString c) ∈ siweLines d o n t a c := by
  refine ⟨?_, rfl, ?_, ?_⟩
  · apply String.ext
    simp [generateSiweMessage, siweLines, String.intercalate,
      String.intercalate.go, String.data_append, siweStatement]
  · simp [siweLines]
  · simp [siweLines]

/-- C7 counterexample: generated nonces do not all have the same length.
`Math.random()` can return 0 and 0.5; `(0).toString(36)` is "0" and
`(0.5).toString(36)` is "0.i", so `substring(2, 15)` yields the nonce ""
(length 0) in the first case and "i" (length 1) in the second. -/
theorem nonce_length_not_constant_counterexample :
    nonceFromRandomRepr "0" = "" ∧
    nonceFromRandomRepr "0.i" = "i" ∧
    (nonceFromRandomRepr "0").length ≠ (nonceFromRandomRepr "0.i").length := by
  refine ⟨?_, ?_, ?_⟩ <;> decide

/-- C7 amended: the nonce is `substring(2, 15)` of the base-36
representation of the random number, hence truncated to at most 13
characters; its length is not a fixed constant. -/
theorem nonce_length_at_most_13 (s : String) :
    (nonceFromRandomRepr s).length ≤ 13 := by
  simp [nonceFromRandomRepr, jsSubstring, String.length_mk, List.length_take,
    List.length_drop]
  omega

end Web3Auth
